import Mathlib

/-!
Verification of the rincon-py client library (`src/rincon/`) against its
natural-language specification.

The embedding is shallow: each Python function of `rincon/client.py` that the
claims touch is translated into a Lean definition.  Python `str` values are
embedded as Lean `String`s except where character-level slicing matters
(`match_route`), where a Python string is embedded as its sequence of code
points (`List Char`), matching Python's `str` semantics (`s[1:]` drops the
first code point, `s.startswith("/")` tests the first code point).

Network interaction is embedded as an explicit `Server` record of response
functions: the Python methods `register_service`, `register_route` and
`remove_service` each either return a decoded value or raise a `RinconError`,
which the embedding renders as `Except RinconErr _`.  The mutable session
fields `_service`, `_routes` and the heartbeat thread are embedded as an
explicit `ClientState` threaded through the operations; starting a background
thread is recorded by the `startedCount` counter (one `threading.Thread.start`
call per increment).
-/

namespace Rincon

/-- Embeds `rincon/models.py` `Service` (pydantic model).  Timestamps are kept
abstract as optional strings: no claim inspects their structure. -/
structure Service where
  id : Int
  name : String
  version : String
  endpoint : String
  health_check : String
  updated_at : Option String
  created_at : Option String
  deriving DecidableEq, Repr

/-- Embeds `rincon/models.py` `Route`. -/
structure Route where
  id : String
  route : String
  method : String
  service_name : String
  created_at : Option String
  deriving DecidableEq, Repr

/-- Embeds the exception taxonomy of `rincon/exceptions.py`.  `genericError`
is the base `RinconError` raised directly (message, optional status code);
the other constructors are its subclasses, whose status codes are fixed by
their `__init__` (401, 400, 404, 500, and none for connection errors). -/
inductive RinconErr where
  | authError (message : String)
  | validationError (message : String)
  | notFoundError (message : String)
  | conflictError (message : String)
  | genericError (message : String) (status_code : Option Int)
  | connectionError (message : String)
  deriving DecidableEq, Repr

/-- The `status_code` attribute each exception class stores, per
`rincon/exceptions.py`. -/
def RinconErr.statusCode : RinconErr → Option Int
  | .authError _ => some 401
  | .validationError _ => some 400
  | .notFoundError _ => some 404
  | .conflictError _ => some 500
  | .genericError _ c => c
  | .connectionError _ => none

/-- The `message` attribute of each exception. -/
def RinconErr.message : RinconErr → String
  | .authError m => m
  | .validationError m => m
  | .notFoundError m => m
  | .conflictError m => m
  | .genericError m _ => m
  | .connectionError m => m

/-- An HTTP response as `_raise_for_status` observes it: a status code, the
`message` field of the body when the body parses as JSON and carries one
(`body.get("message", resp.text)` falls back to `resp.text` otherwise, as
does the `except` branch when parsing fails), and the raw response text. -/
structure HttpResponse where
  status_code : Nat
  jsonMessage : Option String
  text : String
  deriving DecidableEq, Repr

/-- The message `_raise_for_status` extracts: the JSON body's `message` field
when present, else the raw text (`client.py` lines 87-91). -/
def extract_message (r : HttpResponse) : String :=
  r.jsonMessage.getD r.text

/-- Embeds `RinconClient._raise_for_status` (`client.py` lines 82-103):
`none` models a normal return, `some e` models raising `e`. -/
def raise_for_status (r : HttpResponse) : Option RinconErr :=
  if r.status_code = 200 then
    none
  else
    let message := extract_message r
    some (match r.status_code with
      | 401 => .authError message
      | 400 => .validationError message
      | 404 => .notFoundError message
      | 500 => .conflictError message
      | c => .genericError message (some (Int.ofNat c)))

/-- The mutable session state of `RinconClient` (`client.py` lines 36-39):
`service` embeds `self._service`, `routes` embeds `self._routes`,
`heartbeatRunning` embeds `self._heartbeat_thread is not None and
self._heartbeat_thread.is_alive()`, and `startedCount` counts how many
background threads were ever started (one per `threading.Thread(...).start()`
call in `start_heartbeat`). -/
structure ClientState where
  service : Option Service
  routes : List Route
  heartbeatRunning : Bool
  startedCount : Nat
  deriving DecidableEq, Repr

/-- The state a fresh `RinconClient` starts in (`__init__`). -/
def initState : ClientState :=
  { service := none, routes := [], heartbeatRunning := false, startedCount := 0 }

/-- The registry server as the client observes it: each request-level method
of the client either returns the decoded response value or raises a
`RinconErr` (via `_raise_for_status` or a connection failure). -/
structure Server where
  registerService : Service → Except RinconErr Service
  registerRoute : Route → Except RinconErr Route
  removeService : Int → Except RinconErr Unit

/-- The generic session error `RinconError("No service registered with this
client")` raised by `deregister` and `start_heartbeat` (`client.py` lines
221 and 232); the base-class constructor leaves `status_code` as `None`. -/
def sessionError : RinconErr :=
  .genericError "No service registered with this client" none

/-- Embeds the route loop of `RinconClient.register` (`client.py` lines
205-209): for each supplied route in order, set its `service_name` to the
registered service's name (an in-place mutation of the caller's object),
then submit it; on failure the exception propagates at once.  Returns
`(mutated, registered, err)`: the caller's route list after the call
(reflecting the in-place mutations applied so far), the accumulated value of
`self._routes`, and the propagated error if any. -/
def register_routes_loop (srv : Server) (name : String) :
    List Route → List Route × List Route × Option RinconErr
  | [] => ([], [], none)
  | r :: rs =>
    let r' := { r with service_name := name }
    match srv.registerRoute r' with
    | .error e => (r' :: rs, [], some e)
    | .ok reg =>
      match register_routes_loop srv name rs with
      | (mutated, regs, err) => (r' :: mutated, reg :: regs, err)

/-- Embeds `RinconClient.register` (`client.py` lines 201-217).  Returns the
session state after the call, the caller's route list after the call
(observable in-place mutations), and `.ok registered` on success or
`.error e` when an exception propagates.  Python sets `self._service` before
the loop and `self._routes` incrementally, so on a partial failure the state
holds the registered service and the routes registered before the failure. -/
def register (srv : Server) (st : ClientState) (service : Service)
    (routes : List Route) : ClientState × List Route × Except RinconErr Service :=
  match srv.registerService service with
  | .error e => (st, routes, .error e)
  | .ok registered =>
    match register_routes_loop srv registered.name routes with
    | (mutated, regs, err) =>
      let st' := { st with service := some registered, routes := regs }
      match err with
      | some e => (st', mutated, .error e)
      | none => (st', mutated, .ok registered)

/-- Embeds `RinconClient.stop_heartbeat` (`client.py` lines 255-261) at the
state level: after it, no heartbeat thread is alive. -/
def stop_heartbeat (st : ClientState) : ClientState :=
  { st with heartbeatRunning := false }

/-- Embeds `RinconClient.deregister` (`client.py` lines 219-226): raise the
session error when no service is registered (no network call is made — the
embedding never consults `srv` on that path); otherwise stop the heartbeat,
call `remove_service` on the current service's id, and only if that
succeeds clear `self._service` and `self._routes`. -/
def deregister (srv : Server) (st : ClientState) : ClientState × Option RinconErr :=
  match st.service with
  | none => (st, some sessionError)
  | some svc =>
    let st1 := stop_heartbeat st
    match srv.removeService svc.id with
    | .error e => (st1, some e)
    | .ok _ => ({ st1 with service := none, routes := [] }, none)

/-- Embeds `RinconClient.start_heartbeat` (`client.py` lines 230-253): raise
the session error when no service is registered (before any network call or
thread start — the embedding touches no server and leaves `startedCount`
unchanged); return without doing anything when a heartbeat thread is already
alive; otherwise start one background thread. -/
def start_heartbeat (st : ClientState) : ClientState × Option RinconErr :=
  match st.service with
  | none => (st, some sessionError)
  | some _ =>
    if st.heartbeatRunning then
      (st, none)
    else
      ({ st with heartbeatRunning := true, startedCount := st.startedCount + 1 },
        none)

/-- The JSON body of a `GET /rincon/routes` response as `get_route` decodes
it: either a JSON array of routes or a single route object
(`client.py` lines 163-168 branch on `isinstance(data, list)`). -/
inductive RoutesBody where
  | list (rs : List Route)
  | single (r : Route)
  deriving DecidableEq, Repr

/-- Embeds the body handling of `RinconClient.get_route` (`client.py` lines
162-168): an empty list raises `RinconNotFoundError(f"No route {route}
found")`, a non-empty list returns its first element, a single object is
returned as-is. -/
def get_route_body (route : String) (data : RoutesBody) : Except RinconErr Route :=
  match data with
  | .list [] => .error (.notFoundError ("No route " ++ route ++ " found"))
  | .list (r :: _) => .ok r
  | .single r => .ok r

/-- Embeds `RinconClient.get_route` end to end: `_request` runs
`_raise_for_status` on the response first (`client.py` line 79), and only a
200 response reaches the body handling. -/
def get_route (resp : HttpResponse) (data : RoutesBody) (route : String) :
    Except RinconErr Route :=
  match raise_for_status resp with
  | some e => .error e
  | none => get_route_body route data

/-- Embeds `route.startswith("/")` on a Python string viewed as its code
points. -/
def startswith_slash : List Char → Bool
  | [] => false
  | c :: _ => c = '/'

/-- Embeds the path normalization of `RinconClient.match_route`
(`client.py` lines 190-191): `if route.startswith("/"): route = route[1:]`.
The result is the value sent as the `route` query parameter. -/
def match_route_param (route : List Char) : List Char :=
  if startswith_slash route then route.drop 1 else route

/-- A store of Python list objects holding routes: cell index = object
identity.  Used to state aliasing properties (defensive copies) that a pure
value embedding cannot express. -/
structure ListHeap where
  cells : List (List Route)
  deriving DecidableEq, Repr

/-- Read the list object at reference `i`. -/
def ListHeap.read (h : ListHeap) (i : Nat) : List Route :=
  h.cells.getD i []

/-- Mutate the list object at reference `i` in place (models `clear`,
`append`, slice assignment — any in-place replacement of the contents). -/
def ListHeap.write (h : ListHeap) (i : Nat) (v : List Route) : ListHeap :=
  ⟨h.cells.set i v⟩

/-- Allocate a fresh list object with contents `v`, returning its
reference. -/
def ListHeap.alloc (h : ListHeap) (v : List Route) : ListHeap × Nat :=
  (⟨h.cells ++ [v]⟩, h.cells.length)

/-- Modelled from the spec: the public `routes` accessor of `RinconClient`
is absent from `src/rincon/client.py` (the tests call `client.routes`);
per the spec it "exposes read-only snapshots of session state" and "the
returned route sequence must be a defensive copy", i.e. it returns
`list(self._routes)` — a freshly allocated list object holding a copy of
the session's current contents, here `sessionRef` being the reference of
the session's own `_routes` list object. -/
def routes_accessor (h : ListHeap) (sessionRef : Nat) : ListHeap × Nat :=
  h.alloc (h.read sessionRef)

/-- Modelled from the spec: the public `service` accessor of `RinconClient`
is absent from `src/rincon/client.py` (the tests call `client.service`);
per the spec it exposes a read-only snapshot of the session's current
service, i.e. it returns `self._service`. -/
def service_accessor (st : ClientState) : Option Service :=
  st.service

/-- A registry server on which every call succeeds: `register_service`
echoes the service with a server-assigned id, `register_route` echoes the
route, `remove_service` succeeds. -/
def okServer : Server where
  registerService s := .ok { s with id := 820522 }
  registerRoute r := .ok r
  removeService _ := .ok ()

/-- A registry server on which registering the route with path `/b` fails
with a conflict, and everything else succeeds. -/
def failSecondServer : Server where
  registerService s := .ok { s with id := 820522 }
  registerRoute r :=
    if r.route = "/b" then .error (.conflictError "route overlaps with existing routes")
    else .ok r
  removeService _ := .ok ()

/-- A registry server on which `remove_service` always fails. -/
def failRemoveServer : Server where
  registerService s := .ok { s with id := 820522 }
  registerRoute r := .ok r
  removeService _ := .error (.notFoundError "No service found")

/-- Concrete sample service (mirrors the test fixtures). -/
def svcA : Service :=
  { id := 0, name := "service_a", version := "1.0.0",
    endpoint := "http://localhost:8080",
    health_check := "http://localhost:8080/health",
    updated_at := none, created_at := none }

/-- Concrete sample route with a blank `service_name`. -/
def routeBlank : Route :=
  { id := "", route := "/a", method := "GET", service_name := "", created_at := none }

/-- Concrete sample route with path `/b` (the one `failSecondServer`
rejects). -/
def routeB : Route :=
  { id := "", route := "/b", method := "POST", service_name := "", created_at := none }

/-- Concrete sample route whose caller-supplied `service_name` is non-blank
and differs from the registered service's name. -/
def routeOther : Route :=
  { id := "", route := "/users", method := "GET", service_name := "other",
    created_at := none }

/-- A concrete session state with a registered service and a live heartbeat
thread. -/
def runningState : ClientState :=
  { service := some svcA, routes := [], heartbeatRunning := true, startedCount := 1 }

/-! ### Heap helper lemmas -/

theorem ListHeap.read_alloc_self (h : ListHeap) (v : List Route) :
    (h.alloc v).1.read (h.alloc v).2 = v := by
  simp [ListHeap.alloc, ListHeap.read, List.getD_eq_getElem?_getD,
    List.getElem?_concat_length]

theorem ListHeap.read_alloc_old (h : ListHeap) (v : List Route) (j : Nat)
    (hj : j < h.cells.length) : (h.alloc v).1.read j = h.read j := by
  simp [ListHeap.alloc, ListHeap.read, List.getD_eq_getElem?_getD,
    List.getElem?_append, hj]

theorem ListHeap.read_write_ne (h : ListHeap) (i j : Nat) (v : List Route)
    (hij : i ≠ j) : (h.write i v).read j = h.read j := by
  simp [ListHeap.write, ListHeap.read, List.getD_eq_getElem?_getD,
    List.getElem?_set_ne hij]

/-! ### Claim theorems -/

/-- Claim C1: for every HTTP response, `_raise_for_status` raises exactly the
taxonomy member keyed by the status code — 401 the auth error, 400 the
validation error, 404 the not-found error, 500 the conflict error — with the
server-supplied message text; every other non-200 status raises the generic
error carrying that exact status code; a 200 response raises nothing. -/
theorem claim1_raise_for_status_taxonomy (r : HttpResponse) :
    (r.status_code = 200 → raise_for_status r = none) ∧
    (r.status_code = 401 →
      raise_for_status r = some (.authError (extract_message r))) ∧
    (r.status_code = 400 →
      raise_for_status r = some (.validationError (extract_message r))) ∧
    (r.status_code = 404 →
      raise_for_status r = some (.notFoundError (extract_message r))) ∧
    (r.status_code = 500 →
      raise_for_status r = some (.conflictError (extract_message r))) ∧
    (r.status_code ≠ 200 → r.status_code ≠ 401 → r.status_code ≠ 400 →
      r.status_code ≠ 404 → r.status_code ≠ 500 →
      raise_for_status r =
        some (.genericError (extract_message r) (some (Int.ofNat r.status_code)))) := by
  refine ⟨?_, ?_, ?_, ?_, ?_, ?_⟩
  · intro h; simp [raise_for_status, h]
  · intro h; simp [raise_for_status, h]
  · intro h; simp [raise_for_status, h]
  · intro h; simp [raise_for_status, h]
  · intro h; simp [raise_for_status, h]
  · intro h200 h401 h400 h404 h500
    simp only [raise_for_status, if_neg h200]

/-- Witness for C1 at concrete responses: a 401 response raises the auth
error with the server's message, and a 503 response raises the generic error
carrying status 503. -/
theorem claim1_witness :
    raise_for_status ⟨401, some "Invalid credentials", ""⟩ =
      some (.authError "Invalid credentials") ∧
    raise_for_status ⟨503, some "Service unavailable", ""⟩ =
      some (.genericError "Service unavailable" (some 503)) := by
  constructor
  · exact (claim1_raise_for_status_taxonomy ⟨401, some "Invalid credentials", ""⟩).2.1 rfl
  · exact (claim1_raise_for_status_taxonomy ⟨503, some "Service unavailable", ""⟩).2.2.2.2.2
      (by decide) (by decide) (by decide) (by decide) (by decide)

/-- Claim C2 (accessors spec-modelled; absent from `src/rincon/client.py`):
the `service` accessor returns the session's current service, and the list
object the `routes` accessor returns is a defensive copy — mutating it in
place changes neither the session's own list object nor the contents
returned by a subsequent `routes` call. -/
theorem claim2_accessors_defensive_copy (h : ListHeap) (sessionRef : Nat)
    (v : List Route) (st : ClientState) (href : sessionRef < h.cells.length) :
    service_accessor st = st.service ∧
    ((routes_accessor h sessionRef).1.write (routes_accessor h sessionRef).2 v).read
      sessionRef = h.read sessionRef ∧
    (routes_accessor ((routes_accessor h sessionRef).1.write
        (routes_accessor h sessionRef).2 v) sessionRef).1.read
      (routes_accessor ((routes_accessor h sessionRef).1.write
        (routes_accessor h sessionRef).2 v) sessionRef).2 = h.read sessionRef := by
  have hne : (routes_accessor h sessionRef).2 ≠ sessionRef := by
    simp only [routes_accessor, ListHeap.alloc]
    omega
  have hsecond :
      ((routes_accessor h sessionRef).1.write (routes_accessor h sessionRef).2 v).read
        sessionRef = h.read sessionRef := by
    rw [ListHeap.read_write_ne _ _ _ _ hne]
    exact ListHeap.read_alloc_old h _ sessionRef href
  exact ⟨rfl, hsecond, (ListHeap.read_alloc_self _ _).trans hsecond⟩

/-- Witness for C2 at a concrete heap holding one session list with one
route: clearing the copy returned by `routes` (writing `[]` into it) leaves
the session's list and the next `routes` snapshot unchanged. -/
theorem claim2_witness :
    service_accessor initState = initState.service ∧
    ((routes_accessor (ListHeap.mk [[routeBlank]]) 0).1.write
      (routes_accessor (ListHeap.mk [[routeBlank]]) 0).2 []).read 0 =
      (ListHeap.mk [[routeBlank]]).read 0 ∧
    (routes_accessor ((routes_accessor (ListHeap.mk [[routeBlank]]) 0).1.write
        (routes_accessor (ListHeap.mk [[routeBlank]]) 0).2 []) 0).1.read
      (routes_accessor ((routes_accessor (ListHeap.mk [[routeBlank]]) 0).1.write
        (routes_accessor (ListHeap.mk [[routeBlank]]) 0).2 []) 0).2 =
      (ListHeap.mk [[routeBlank]]).read 0 :=
  claim2_accessors_defensive_copy (ListHeap.mk [[routeBlank]]) 0 [] initState
    (by decide)

/-- Claim C5: `deregister` raises the generic session error when no service
is registered (the embedding consults no server on that path, so no network
call is made); with a registered service it clears the session's service and
routes only after the remote removal succeeds, and a remote failure leaves
the session's service and route state untouched while the error
propagates. -/
theorem claim5_deregister_spec (srv : Server) (st : ClientState) :
    (st.service = none → deregister srv st = (st, some sessionError)) ∧
    (∀ svc e, st.service = some svc → srv.removeService svc.id = .error e →
      (deregister srv st).1.service = st.service ∧
      (deregister srv st).1.routes = st.routes ∧
      (deregister srv st).2 = some e) ∧
    (∀ svc, st.service = some svc → srv.removeService svc.id = .ok () →
      deregister srv st =
        ({ st with service := none, routes := [], heartbeatRunning := false },
          none)) := by
  refine ⟨?_, ?_, ?_⟩
  · intro h; simp [deregister, h]
  · intro svc e hsvc herr
    simp [deregister, hsvc, herr, stop_heartbeat]
  · intro svc hsvc hok
    simp [deregister, hsvc, hok, stop_heartbeat]

/-- Witness for C5: on a fresh session `deregister` raises the session
error; on a session with a registered service, a failing remote removal
leaves the route state untouched, and a succeeding one clears the state. -/
theorem claim5_witness :
    deregister okServer initState = (initState, some sessionError) ∧
    (deregister failRemoveServer runningState).1.routes = runningState.routes ∧
    deregister okServer runningState = (⟨none, [], false, 1⟩, none) :=
  ⟨(claim5_deregister_spec okServer initState).1 rfl,
    ((claim5_deregister_spec failRemoveServer runningState).2.1 svcA
      (.notFoundError "No service found") rfl rfl).2.1,
    (claim5_deregister_spec okServer runningState).2.2 svcA rfl rfl⟩

/-- Claim C7: `match_route` strips exactly one leading `/` from the path
before querying — a path with no leading separator is sent unchanged, and a
path of the form `/` followed by a tail has exactly that tail (and only the
first separator removed) as the `route` query parameter. -/
theorem claim7_match_route_param_strip (p : List Char) :
    (startswith_slash p = false → match_route_param p = p) ∧
    ∀ s, p = '/' :: s → match_route_param p = s := by
  constructor
  · intro h
    simp [match_route_param, h]
  · rintro s rfl
    simp [match_route_param, startswith_slash]

/-- Witness for C7: `"/users/123"` is sent as `"users/123"`, a doubled
separator loses only the first one, and a path without a leading separator
is sent unchanged. -/
theorem claim7_witness :
    match_route_param "/users/123".toList = "users/123".toList ∧
    match_route_param "//a".toList = "/a".toList ∧
    match_route_param "users".toList = "users".toList :=
  ⟨(claim7_match_route_param_strip _).2 "users/123".toList (by decide),
    (claim7_match_route_param_strip _).2 "/a".toList (by decide),
    (claim7_match_route_param_strip _).1 (by decide)⟩

/-- Claim C8: `get_route` raises the not-found error on a 200 response whose
body is an empty list (with the message built from the queried path), and on
a 404 status (with the server's message); a 200 response with a non-empty
list returns the first element. -/
theorem claim8_get_route_not_found (resp : HttpResponse) (data : RoutesBody)
    (route : String) :
    (resp.status_code = 404 →
      get_route resp data route = .error (.notFoundError (extract_message resp))) ∧
    (resp.status_code = 200 → data = .list [] →
      get_route resp data route =
        .error (.notFoundError ("No route " ++ route ++ " found"))) ∧
    (∀ r rs, resp.status_code = 200 → data = .list (r :: rs) →
      get_route resp data route = .ok r) := by
  refine ⟨?_, ?_, ?_⟩
  · intro h
    simp [get_route, raise_for_status, h]
  · rintro h rfl
    simp [get_route, raise_for_status, h, get_route_body]
  · rintro r rs h rfl
    simp [get_route, raise_for_status, h, get_route_body]

/-- Witness for C8: a 200 empty-list response and a 404 response both raise
the not-found error; a 200 singleton-list response returns its element. -/
theorem claim8_witness :
    get_route ⟨200, none, ""⟩ (.list []) "users" =
      .error (.notFoundError ("No route " ++ "users" ++ " found")) ∧
    get_route ⟨404, some "No route users found", ""⟩ (.list []) "users" =
      .error (.notFoundError "No route users found") ∧
    get_route ⟨200, none, ""⟩ (.list [routeBlank]) "users" = .ok routeBlank :=
  ⟨(claim8_get_route_not_found ⟨200, none, ""⟩ (.list []) "users").2.1 rfl rfl,
    (claim8_get_route_not_found ⟨404, some "No route users found", ""⟩
      (.list []) "users").1 rfl,
    (claim8_get_route_not_found ⟨200, none, ""⟩ (.list [routeBlank]) "users").2.2
      routeBlank [] rfl rfl⟩

/-- Claim C9: `start_heartbeat` with no registered service raises the
session error and changes nothing (the embedding consults no server and
starts no thread: the state, including `startedCount`, is returned intact);
with a heartbeat already running it is a no-op — the state, including
`startedCount`, is unchanged, so no second background task is started. -/
theorem claim9_start_heartbeat_spec (st : ClientState) :
    (st.service = none → start_heartbeat st = (st, some sessionError)) ∧
    (st.service ≠ none → st.heartbeatRunning = true →
      start_heartbeat st = (st, none)) := by
  constructor
  · intro h
    simp [start_heartbeat, h]
  · intro h hr
    cases hsvc : st.service with
    | none => exact absurd hsvc h
    | some svc => simp [start_heartbeat, hsvc, hr]

/-- Witness for C9: a fresh session raises the session error; a session with
a live heartbeat is returned unchanged (same `startedCount`). -/
theorem claim9_witness :
    start_heartbeat initState = (initState, some sessionError) ∧
    start_heartbeat runningState = (runningState, none) :=
  ⟨(claim9_start_heartbeat_spec initState).1 rfl,
    (claim9_start_heartbeat_spec runningState).2 (by decide) rfl⟩

/-! ### Route-loop helper lemmas -/

/-- When the route loop raises no error, it registers exactly as many routes
as were supplied. -/
theorem register_routes_loop_length_of_ok (srv : Server) (name : String) :
    ∀ rs : List Route, (register_routes_loop srv name rs).2.2 = none →
      (register_routes_loop srv name rs).2.1.length = rs.length := by
  intro rs
  induction rs with
  | nil => intro _; rfl
  | cons r rs ih =>
    intro h
    cases hr : srv.registerRoute { r with service_name := name } with
    | error e => simp [register_routes_loop, hr] at h
    | ok reg =>
      rcases hloop : register_routes_loop srv name rs with ⟨m, g, err⟩
      simp only [register_routes_loop, hr, hloop] at h ⊢
      simp only [hloop] at ih
      simp [ih h]

/-- When the route loop raises no error, the caller's route list after the
call is the supplied list with every element's `service_name` overwritten by
the registered service's name. -/
theorem register_routes_loop_map_of_ok (srv : Server) (name : String) :
    ∀ rs : List Route, (register_routes_loop srv name rs).2.2 = none →
      (register_routes_loop srv name rs).1 =
        rs.map (fun r => { r with service_name := name }) := by
  intro rs
  induction rs with
  | nil => intro _; rfl
  | cons r rs ih =>
    intro h
    cases hr : srv.registerRoute { r with service_name := name } with
    | error e => simp [register_routes_loop, hr] at h
    | ok reg =>
      rcases hloop : register_routes_loop srv name rs with ⟨m, g, err⟩
      simp only [register_routes_loop, hr, hloop] at h ⊢
      simp only [hloop] at ih
      simp [ih h]

/-- When the loop succeeds on a whole block `pre` of routes and the next
route fails, the loop on `pre ++ r :: post` registers exactly the routes it
registered for `pre` and propagates the failure. -/
theorem register_routes_loop_append_error (srv : Server) (name : String)
    (r : Route) (e : RinconErr) (post : List Route)
    (hr : srv.registerRoute { r with service_name := name } = .error e) :
    ∀ pre : List Route, (register_routes_loop srv name pre).2.2 = none →
      (register_routes_loop srv name (pre ++ r :: post)).2.1 =
        (register_routes_loop srv name pre).2.1 ∧
      (register_routes_loop srv name (pre ++ r :: post)).2.2 = some e := by
  intro pre
  induction pre with
  | nil =>
    intro _
    simp [register_routes_loop, hr]
  | cons p pre ih =>
    intro hpre
    cases hp : srv.registerRoute { p with service_name := name } with
    | error e0 => simp [register_routes_loop, hp] at hpre
    | ok reg0 =>
      rcases hloopPre : register_routes_loop srv name pre with ⟨m1, g1, err1⟩
      rcases hloopApp : register_routes_loop srv name (pre ++ r :: post)
        with ⟨m2, g2, err2⟩
      simp only [List.cons_append, register_routes_loop, hp, hloopPre, hloopApp]
        at hpre ih ⊢
      obtain ⟨ih1, ih2⟩ := ih hpre
      simp [hloopApp, ih1, ih2]

/-- When `register` returns normally, the caller's route list after the call
is the supplied list with every `service_name` overwritten by the registered
service's name. -/
theorem register_ok_mutated (srv : Server) (st st1 : ClientState)
    (s reg : Service) (rs mutated : List Route)
    (h : register srv st s rs = (st1, mutated, .ok reg)) :
    mutated = rs.map (fun r => { r with service_name := reg.name }) := by
  cases hs : srv.registerService s with
  | error e => simp [register, hs] at h
  | ok registered =>
    rcases hloop : register_routes_loop srv registered.name rs with ⟨m, g, err⟩
    cases err with
    | some e => simp [register, hs, hloop] at h
    | none =>
      simp only [register, hs, hloop, Prod.mk.injEq, Except.ok.injEq] at h
      obtain ⟨-, hm, hreg⟩ := h
      have hmap := register_routes_loop_map_of_ok srv registered.name rs
        (by rw [hloop])
      rw [hloop] at hmap
      rw [← hm, ← hreg]
      exact hmap

/-! ### Claims C3, C4, C6, C10 -/

/-- Counterexample to Claim C3: a route submitted with the non-blank
`service_name` `"other"` does not keep the caller's value — both the route
submitted to the server (echoed back into the session's route list by
`okServer`) and the caller's own route object end up with `service_name`
`"service_a"`, the just-registered service's name. -/
theorem claim3_counterexample :
    routeOther.service_name = "other" ∧
    (register okServer initState svcA [routeOther]).1.routes.map
      Route.service_name = ["service_a"] ∧
    (register okServer initState svcA [routeOther]).2.1.map
      Route.service_name = ["service_a"] ∧
    ("service_a" : String) ≠ "other" := by
  decide

/-- Claim C3 as amended: for every `register` call that returns normally,
every supplied route's `service_name` is overwritten with the registered
service's name before submission, regardless of whether the caller left it
blank — blank values are back-filled, non-blank values are not preserved. -/
theorem claim3_amended_overwrites_regardless (srv : Server) (st st1 : ClientState)
    (s reg : Service) (rs mutated : List Route)
    (h : register srv st s rs = (st1, mutated, .ok reg)) :
    mutated.map Route.service_name = rs.map (fun _ => reg.name) := by
  rw [register_ok_mutated srv st st1 s reg rs mutated h, List.map_map]
  rfl

/-- Witness for the amended C3: registering a blank-named route and a route
named `"other"` leaves both submitted routes named `"service_a"`. -/
theorem claim3_amended_witness :
    (register okServer initState svcA [routeBlank, routeOther]).2.1.map
      Route.service_name = [routeBlank, routeOther].map (fun _ => "service_a") := by
  have h := claim3_amended_overwrites_regardless okServer initState
    ⟨some { svcA with id := 820522 },
      [{ routeBlank with service_name := "service_a" },
        { routeOther with service_name := "service_a" }], false, 0⟩
    svcA { svcA with id := 820522 } [routeBlank, routeOther]
    [{ routeBlank with service_name := "service_a" },
      { routeOther with service_name := "service_a" }] rfl
  exact h

/-- Claim C4: when `register` fails on the route following a block `pre` of
successfully registered routes, the exception propagates to the caller, the
session's service is set to the registered service, and the session's route
list is exactly what the loop registered for `pre` — as many routes as `pre`
holds, in submission order. -/
theorem claim4_register_route_failure (srv : Server) (st : ClientState)
    (s reg : Service) (pre post : List Route) (r : Route) (e : RinconErr)
    (hs : srv.registerService s = .ok reg)
    (hpre : (register_routes_loop srv reg.name pre).2.2 = none)
    (hr : srv.registerRoute { r with service_name := reg.name } = .error e) :
    (register srv st s (pre ++ r :: post)).2.2 = .error e ∧
    (register srv st s (pre ++ r :: post)).1.service = some reg ∧
    (register srv st s (pre ++ r :: post)).1.routes =
      (register_routes_loop srv reg.name pre).2.1 ∧
    (register srv st s (pre ++ r :: post)).1.routes.length = pre.length := by
  obtain ⟨hg, herr⟩ :=
    register_routes_loop_append_error srv reg.name r e post hr pre hpre
  have hlen := register_routes_loop_length_of_ok srv reg.name pre hpre
  rcases hloopApp : register_routes_loop srv reg.name (pre ++ r :: post)
    with ⟨m2, g2, err2⟩
  rw [hloopApp] at hg herr
  subst herr
  subst hg
  refine ⟨?_, ?_, ?_, ?_⟩ <;> simp [register, hs, hloopApp, hlen]

/-- Witness for C4: with two routes where registering the second fails, the
exception propagates, the service is set, and the session holds exactly one
route (not zero and not two). -/
theorem claim4_witness :
    (register failSecondServer initState svcA ([routeBlank] ++ routeB :: [])).2.2 =
      .error (.conflictError "route overlaps with existing routes") ∧
    (register failSecondServer initState svcA ([routeBlank] ++ routeB :: [])).1.service =
      some { svcA with id := 820522 } ∧
    (register failSecondServer initState svcA ([routeBlank] ++ routeB :: [])).1.routes.length
      = 1 := by
  have h := claim4_register_route_failure failSecondServer initState svcA
    { svcA with id := 820522 } [routeBlank] [] routeB
    (.conflictError "route overlaps with existing routes") rfl rfl rfl
  exact ⟨h.1, h.2.1, h.2.2.2⟩

/-- Claim C6: a successful `register` followed by a successful `deregister`
returns the session to the initial state — the current service is absent and
the route list is empty — and a second `deregister` then fails with the
"no service registered" session error. -/
theorem claim6_register_deregister_roundtrip (srv : Server)
    (st st1 st2 : ClientState) (s reg : Service) (rs mutated : List Route)
    (h1 : register srv st s rs = (st1, mutated, .ok reg))
    (h2 : deregister srv st1 = (st2, none)) :
    st2.service = none ∧ st2.routes = [] ∧
    deregister srv st2 = (st2, some sessionError) := by
  cases hsvc : st1.service with
  | none => simp [deregister, hsvc] at h2
  | some svc =>
    cases hrm : srv.removeService svc.id with
    | error e => simp [deregister, hsvc, hrm] at h2
    | ok u =>
      cases u
      simp only [deregister, hsvc, hrm, stop_heartbeat, Prod.mk.injEq] at h2
      obtain ⟨hst, -⟩ := h2
      subst hst
      exact ⟨rfl, rfl, by simp [deregister]⟩

/-- Witness for C6: running `register` then `deregister` concretely against
an all-successful server lands back in the initial state, on which
`deregister` raises the session error. -/
theorem claim6_witness :
    initState.service = none ∧ initState.routes = [] ∧
    deregister okServer initState = (initState, some sessionError) :=
  claim6_register_deregister_roundtrip okServer initState
    ⟨some { svcA with id := 820522 },
      [{ routeBlank with service_name := "service_a" }], false, 0⟩
    initState svcA { svcA with id := 820522 } [routeBlank]
    [{ routeBlank with service_name := "service_a" }] rfl rfl

/-- Claim C10: for every `register` call that returns normally, each Route
object the caller supplied has had its `service_name` field overwritten in
place with the registered service's name, regardless of its prior value —
the caller's own route list after the call is the supplied list with every
`service_name` replaced. -/
theorem claim10_register_mutates_caller_routes (srv : Server)
    (st st1 : ClientState) (s reg : Service) (rs mutated : List Route)
    (h : register srv st s rs = (st1, mutated, .ok reg)) :
    mutated = rs.map (fun r => { r with service_name := reg.name }) :=
  register_ok_mutated srv st st1 s reg rs mutated h

/-- Witness for C10: after a concrete successful `register`, the caller's
two route objects — one submitted blank, one submitted as `"other"` — both
carry `service_name` `"service_a"`. -/
theorem claim10_witness :
    (register okServer initState svcA [routeBlank, routeOther]).2.1 =
      [routeBlank, routeOther].map
        (fun r => { r with service_name := "service_a" }) :=
  claim10_register_mutates_caller_routes okServer initState
    ⟨some { svcA with id := 820522 },
      [{ routeBlank with service_name := "service_a" },
        { routeOther with service_name := "service_a" }], false, 0⟩
    svcA { svcA with id := 820522 } [routeBlank, routeOther]
    (register okServer initState svcA [routeBlank, routeOther]).2.1 rfl

end Rincon
